import Mathlib

/-!
Verification of the multi-agent retrieval-augmented question-answering
pipeline (`app.py`): document chunking, per-domain lexical retrieval,
keyword routing to domain agents, and coordinator synthesis.

The language model client is embedded as an opaque function
`llm : String → String`; each agent result carries the list of prompts it
passed to the client, so "number of model invocations" is the length of
that list.  The router result additionally carries the ordered trace of
agent invocations.
-/

/-- A retrieved passage. Mirrors a langchain `Document`'s `page_content`. -/
structure Chunk where
  text : String
deriving DecidableEq, Repr

/-- A per-domain lexical retrieval index over an immutable chunk snapshot
(embeds `BM25Retriever.from_documents`). -/
structure RetrieverIndex where
  chunks : List Chunk
deriving DecidableEq, Repr

/-- `leadMatch needle hay` is true when `needle` occurs at the start of `hay`. -/
def leadMatch : List Char → List Char → Bool
  | [], _ => true
  | _ :: _, [] => false
  | a :: as, b :: bs => a == b && leadMatch as bs

/-- Substring containment on character lists, embedding Python's
`needle in hay` test used by the router. -/
def strContains (needle : List Char) : List Char → Bool
  | [] => leadMatch needle []
  | c :: t => leadMatch needle (c :: t) || strContains needle t

/-- `containsKw hay kw`: the keyword occurs as a substring of `hay`
(embeds `kw in hay` in `main`). -/
def containsKw (hay kw : String) : Bool :=
  strContains kw.data hay.data

/-- ASCII lowercasing of a string, embedding `query.lower()` in `main`. -/
def toLowerStr (s : String) : String :=
  ⟨s.data.map Char.toLower⟩

/-- Modelled from the spec: the Chunker of `load_and_chunk`
(`RecursiveCharacterTextSplitter` with `chunk_size=500`, `chunk_overlap=50`);
the splitting algorithm itself is library code outside this repository's
sources.  Chunks are 500-character windows advancing by 450 characters, so
consecutive chunks share exactly 50 characters; empty input yields an empty
sequence. -/
def splitChunks (s : List Char) : List (List Char) :=
  if s = [] then []
  else if s.length ≤ 500 then [s]
  else s.take 500 :: splitChunks (s.drop 450)
termination_by s.length
decreasing_by simp; omega

/-- Every consecutive pair of chunks shares the configured 50 characters at
the boundary: the last 50 characters of one chunk are the first 50 of the
next. -/
def chainOverlap : List (List Char) → Prop
  | a :: b :: rest => a.drop (a.length - 50) = b.take 50 ∧ chainOverlap (b :: rest)
  | _ => True

/-- Concatenate a chunk sequence while discarding each duplicated
50-character overlap. -/
def reassemble : List (List Char) → List Char
  | [] => []
  | c :: cs => c ++ (cs.map (fun d => d.drop 50)).flatten

/-- Auxiliary whitespace tokenizer accumulator. -/
def wordsAux (cur : List Char) : List Char → List (List Char)
  | [] => [cur.reverse]
  | c :: rest => if c = ' ' then cur.reverse :: wordsAux [] rest else wordsAux (c :: cur) rest

/-- Modelled from the spec: whitespace tokenization used by the lexical
relevance ranking; the actual tokenizer lives in the `BM25Retriever`
library code, which is not part of this repository's sources. -/
def words (s : String) : List (List Char) :=
  wordsAux [] s.data

/-- Modelled from the spec: a term-frequency lexical relevance score of a
chunk for a query ("build a lexical relevance ranking structure (e.g.,
term-frequency based)"); the actual BM25 scoring lives in library code
outside this repository. -/
def relevance (q : String) (c : Chunk) : Nat :=
  ((words q).map (fun t => (words c.text).count t)).sum

/-- Ranking order on index-tagged chunks: strictly higher relevance first,
ties broken by smaller original position. -/
def rank (q : String) (a b : Nat × Chunk) : Prop :=
  relevance q b.2 < relevance q a.2 ∨
    (relevance q a.2 = relevance q b.2 ∧ a.1 ≤ b.1)

instance (q : String) (a b : Nat × Chunk) : Decidable (rank q a b) := by
  unfold rank; exact inferInstance

instance (q : String) : IsTotal (Nat × Chunk) (rank q) := by
  constructor; intro a b; unfold rank; omega

instance (q : String) : IsTrans (Nat × Chunk) (rank q) := by
  constructor; intro a b c hab hbc; unfold rank at hab hbc ⊢; omega

/-- Modelled from the spec: the ranked sequence underlying `query(text, k)`
of the Retriever Index — every chunk tagged with its original position,
stably sorted by decreasing lexical relevance. The actual ranking lives in
the `BM25Retriever` library code outside this repository. -/
def rankedList (q : String) (cs : List Chunk) : List (Nat × Chunk) :=
  List.insertionSort (rank q) cs.enum

/-- Modelled from the spec: top-k retrieval of the Retriever Index
(`retriever.get_relevant_documents`, default `k = 4`); the ranking itself is
library code outside this repository. -/
def queryIndex (idx : RetrieverIndex) (q : String) (k : Nat) : List Chunk :=
  ((rankedList q idx.chunks).map Prod.snd).take k

/-- Per-domain index construction: `BM25Retriever.from_documents(chunks) if
chunks else None` in `build_retrievers`. -/
def buildIndex (cs : List Chunk) : Option RetrieverIndex :=
  if cs = [] then none else some ⟨cs⟩

/-- Embeds `build_retrievers`: one optional index per domain. -/
def build_retrievers (salaryChunks insuranceChunks : List Chunk) :
    Option RetrieverIndex × Option RetrieverIndex :=
  (buildIndex salaryChunks, buildIndex insuranceChunks)

/-- The salary agent's prompt (the f-string in `salary_agent`). -/
def salaryPrompt (context query : String) : String :=
  "\n    You are the **Salary Agent**. Use the following context to answer.\n\n    Context:\n    "
    ++ context ++ "\n\n    Question: " ++ query
    ++ "\n\n    Answer clearly about salary details:\n    "

/-- The insurance agent's prompt (the f-string in `insurance_agent`). -/
def insurancePrompt (context query : String) : String :=
  "\n    You are the **Insurance Agent**. Use the following context to answer.\n\n    Context:\n    "
    ++ context ++ "\n\n    Question: " ++ query
    ++ "\n\n    Answer clearly about insurance details:\n    "

/-- The coordinator's prompt (the f-string in `coordinator_agent`). -/
def coordinatorPrompt (query salaryAns insuranceAns : String) : String :=
  "\n    You are the **Coordinator Agent**. Combine the following answers into one clear response.\n\n    Salary Agent Answer:\n    "
    ++ salaryAns ++ "\n\n    Insurance Agent Answer:\n    " ++ insuranceAns
    ++ "\n\n    User Question: " ++ query
    ++ "\n\n    Provide a helpful, concise final answer for the user.\n    "

/-- Embeds `salary_agent`: answer text together with the list of prompts
sent to the language model client during the call. -/
def salary_agent (query : String) (retriever : Option RetrieverIndex)
    (llm : String → String) : String × List String :=
  match retriever with
  | none => ("No salary data available.", [])
  | some r =>
      let context := String.intercalate "\n" ((queryIndex r query 4).map Chunk.text)
      let prompt := salaryPrompt context query
      ("🧑‍💼 Salary Agent: " ++ llm prompt, [prompt])

/-- Embeds `insurance_agent`. -/
def insurance_agent (query : String) (retriever : Option RetrieverIndex)
    (llm : String → String) : String × List String :=
  match retriever with
  | none => ("No insurance data available.", [])
  | some r =>
      let context := String.intercalate "\n" ((queryIndex r query 4).map Chunk.text)
      let prompt := insurancePrompt context query
      ("🏥 Insurance Agent: " ++ llm prompt, [prompt])

/-- Embeds `coordinator_agent`. -/
def coordinator_agent (query salaryAns insuranceAns : String)
    (llm : String → String) : String × List String :=
  let prompt := coordinatorPrompt query salaryAns insuranceAns
  ("🤝 Coordinator Agent: " ++ llm prompt, [prompt])

/-- One agent invocation observed at the router, with the arguments passed. -/
inductive AgentCall where
  | salary (query : String)
  | insurance (query : String)
  | coordinator (query salaryAns insuranceAns : String)
deriving DecidableEq, Repr

/-- The query argument of an agent invocation. -/
def callQuery : AgentCall → String
  | .salary q => q
  | .insurance q => q
  | .coordinator q _ _ => q

/-- True exactly on coordinator invocations. -/
def isCoordinatorCall : AgentCall → Bool
  | .coordinator _ _ _ => true
  | _ => false

/-- The router's aggregate result for one query: the
`salary_ans, insurance_ans, final_ans` triple of `main`. -/
structure CompositeAnswer where
  salary : Option String
  insurance : Option String
  final : Option String
deriving DecidableEq, Repr

/-- Result of processing one query in `main`: the composite answer, the
clarification warning (when shown), the ordered agent-invocation trace and
the ordered list of prompts sent to the language model client. -/
structure RouteResult where
  answers : CompositeAnswer
  warning : Option String
  trace : List AgentCall
  calls : List String
deriving DecidableEq, Repr

/-- The clarification sentinel `st.warning(...)` text in `main`. -/
def clarificationSentinel : String :=
  "⚠️ Please ask about **salary** or **insurance**."

/-- Embeds the query-processing branch of `main`: lowercase the query,
test keyword containment, and dispatch to the agents. -/
def route (query : String) (salarySt insuranceSt : Option RetrieverIndex)
    (llm : String → String) : RouteResult :=
  let ql := toLowerStr query
  if containsKw ql "salary" && !containsKw ql "insurance" then
    let r := salary_agent query salarySt llm
    ⟨⟨some r.1, none, none⟩, none, [.salary query], r.2⟩
  else if containsKw ql "insurance" && !containsKw ql "salary" then
    let r := insurance_agent query insuranceSt llm
    ⟨⟨none, some r.1, none⟩, none, [.insurance query], r.2⟩
  else if containsKw ql "salary" && containsKw ql "insurance" then
    let rs := salary_agent query salarySt llm
    let ri := insurance_agent query insuranceSt llm
    let rc := coordinator_agent query rs.1 ri.1 llm
    ⟨⟨some rs.1, some ri.1, some rc.1⟩, none,
      [.salary query, .insurance query, .coordinator query rs.1 ri.1],
      rs.2 ++ ri.2 ++ rc.2⟩
  else
    ⟨⟨none, none, none⟩, some clarificationSentinel, [], []⟩

/-- The four routing outcomes of the dispatch table. -/
inductive Branch where
  | salaryOnly
  | insuranceOnly
  | both
  | neither
deriving DecidableEq, Repr

/-- The routing outcome as a function of the query text alone, mirroring
the `if`/`elif` conditions of `main`. -/
def classify (query : String) : Branch :=
  let ql := toLowerStr query
  if containsKw ql "salary" && !containsKw ql "insurance" then .salaryOnly
  else if containsKw ql "insurance" && !containsKw ql "salary" then .insuranceOnly
  else if containsKw ql "salary" && containsKw ql "insurance" then .both
  else .neither

/-- The routing outcome read off a route result's populated fields. -/
def observedBranch (r : RouteResult) : Branch :=
  match r.answers.salary, r.answers.insurance with
  | some _, none => .salaryOnly
  | none, some _ => .insuranceOnly
  | some _, some _ => .both
  | none, none => .neither

/-- The chunker emits the leading 500-character window first whenever the
input is non-empty. -/
theorem splitChunks_cons (s : List Char) (h : s ≠ []) :
    ∃ cs, splitChunks s = s.take 500 :: cs := by
  unfold splitChunks
  split_ifs with h1 h2
  · exact absurd h1 h
  · exact ⟨[], by rw [List.take_of_length_le h2]⟩
  · exact ⟨_, rfl⟩

/-- Each chunk of the chunker holds at most 500 characters. -/
theorem splitChunks_length_le (s : List Char) :
    List.Forall (fun c => c.length ≤ 500) (splitChunks s) := by
  induction s using splitChunks.induct with
  | case1 => simp [splitChunks]
  | case2 s h1 h2 => simp [splitChunks, h1, h2]
  | case3 s h1 h2 ih =>
      rw [splitChunks]
      simp only [if_neg h1, if_neg h2, List.forall_cons]
      exact ⟨List.length_take_le _ _, ih⟩

/-- Unfolding equation of `reassemble` on a non-empty chunk sequence. -/
theorem reassemble_cons (c : List Char) (cs : List (List Char)) :
    reassemble (c :: cs) = c ++ (cs.map (fun d => d.drop 50)).flatten := rfl

/-- Discarding the duplicated overlaps and concatenating reconstructs the
chunker's input exactly. -/
theorem splitChunks_reassemble (s : List Char) :
    reassemble (splitChunks s) = s := by
  induction s using splitChunks.induct with
  | case1 => simp [splitChunks, reassemble]
  | case2 s h1 h2 => simp [splitChunks, h1, h2, reassemble]
  | case3 s h1 h2 ih =>
      have hlen : 500 < s.length := by omega
      have ht : s.drop 450 ≠ [] := by
        intro hc
        have := congrArg List.length hc
        simp at this
        omega
      obtain ⟨cs, hcs⟩ := splitChunks_cons (s.drop 450) ht
      rw [splitChunks]
      simp only [if_neg h1, if_neg h2]
      rw [hcs, reassemble_cons]
      rw [hcs, reassemble_cons] at ih
      have hjoin : (cs.map (fun d => d.drop 50)).flatten = (s.drop 450).drop 500 := by
        apply List.append_cancel_left
        rw [ih]
        exact (List.take_append_drop 500 (s.drop 450)).symm
      simp only [List.map_cons, List.flatten_cons]
      rw [hjoin]
      rw [List.drop_take]
      rw [List.drop_drop, List.drop_drop]
      calc List.take 500 s ++ (List.take (500 - 50) (List.drop (450 + 50) s) ++ List.drop (450 + (50 + 450)) s)
          = List.take 500 s ++ (List.take 450 (List.drop 500 s) ++ List.drop 450 (List.drop 500 s)) := by
            rw [List.drop_drop]
        _ = List.take 500 s ++ List.drop 500 s := by rw [List.take_append_drop]
        _ = s := List.take_append_drop 500 s

/-- Adjacent chunks of the chunker share exactly the 50-character overlap. -/
theorem splitChunks_overlap (s : List Char) : chainOverlap (splitChunks s) := by
  induction s using splitChunks.induct with
  | case1 => simp [splitChunks, chainOverlap]
  | case2 s h1 h2 => simp [splitChunks, h1, h2, chainOverlap]
  | case3 s h1 h2 ih =>
      have hlen : 500 < s.length := by omega
      have ht : s.drop 450 ≠ [] := by
        intro hc
        have := congrArg List.length hc
        simp at this
        omega
      obtain ⟨cs, hcs⟩ := splitChunks_cons (s.drop 450) ht
      rw [splitChunks]
      simp only [if_neg h1, if_neg h2]
      rw [hcs]
      have hstep : chainOverlap ((s.drop 450).take 500 :: cs) := by
        rw [← hcs]; exact ih
      refine ⟨?_, hstep⟩
      have hl : (s.take 500).length = 500 := by
        rw [List.length_take]
        omega
      rw [hl]
      rw [List.drop_take]
      rw [List.take_take]
      norm_num

/-- C6: the 500/50 chunker yields chunks of length at most 500, adjacent
chunks share exactly 50 characters at the boundary, and concatenation with
the duplicated overlaps discarded reconstructs the input text exactly. -/
theorem chunker_spec (s : List Char) :
    List.Forall (fun c => c.length ≤ 500) (splitChunks s) ∧
    chainOverlap (splitChunks s) ∧
    reassemble (splitChunks s) = s :=
  ⟨splitChunks_length_le s, splitChunks_overlap s, splitChunks_reassemble s⟩

/-- C7: for a non-empty chunk sequence an index is built over exactly those
chunks; its query operation returns at most `k` chunks, namely the chunks of
the ranked sequence, which is sorted by non-increasing relevance with ties
broken by original position and is a permutation of the position-tagged
input; an empty chunk sequence builds no index at all. -/
theorem retriever_query_spec (cs : List Chunk) (q : String) (k : Nat)
    (h : cs ≠ []) :
    buildIndex cs = some ⟨cs⟩ ∧
    (queryIndex ⟨cs⟩ q k).length ≤ k ∧
    queryIndex ⟨cs⟩ q k = ((rankedList q cs).take k).map Prod.snd ∧
    List.Sorted (rank q) (rankedList q cs) ∧
    List.Perm (rankedList q cs) cs.enum ∧
    buildIndex ([] : List Chunk) = none := by
  refine ⟨?_, ?_, ?_, ?_, ?_, rfl⟩
  · simp [buildIndex, h]
  · exact List.length_take_le _ _
  · simp [queryIndex]
  · exact List.sorted_insertionSort (rank q) _
  · exact List.perm_insertionSort (rank q) _

/-- Witness for `retriever_query_spec` on a two-chunk salary corpus. -/
theorem retriever_query_spec_witness :
    ([⟨"base pay reviewed"⟩, ⟨"bonus paid"⟩] : List Chunk) ≠ [] ∧
    (buildIndex [⟨"base pay reviewed"⟩, ⟨"bonus paid"⟩] =
       some ⟨[⟨"base pay reviewed"⟩, ⟨"bonus paid"⟩]⟩ ∧
     (queryIndex ⟨[⟨"base pay reviewed"⟩, ⟨"bonus paid"⟩]⟩ "bonus" 1).length ≤ 1 ∧
     queryIndex ⟨[⟨"base pay reviewed"⟩, ⟨"bonus paid"⟩]⟩ "bonus" 1 =
       ((rankedList "bonus" [⟨"base pay reviewed"⟩, ⟨"bonus paid"⟩]).take 1).map Prod.snd ∧
     List.Sorted (rank "bonus") (rankedList "bonus" [⟨"base pay reviewed"⟩, ⟨"bonus paid"⟩]) ∧
     List.Perm (rankedList "bonus" [⟨"base pay reviewed"⟩, ⟨"bonus paid"⟩])
       ([⟨"base pay reviewed"⟩, ⟨"bonus paid"⟩] : List Chunk).enum ∧
     buildIndex ([] : List Chunk) = none) :=
  ⟨by decide, retriever_query_spec _ "bonus" 1 (by decide)⟩

/-- C4: a Domain Agent whose Retriever Index slot is null returns the
"no data available" sentinel for its domain and sends no prompt to the
language model client. -/
theorem agent_no_index_sentinel (q : String) (llm : String → String) :
    salary_agent q none llm = ("No salary data available.", []) ∧
    insurance_agent q none llm = ("No insurance data available.", []) :=
  ⟨rfl, rfl⟩

/-- C8: a Domain Agent with an index sends exactly one prompt to the model
client — the domain prompt composed over the top-4 retrieved chunk texts
concatenated in ranked order (possibly empty) and the query — and returns
the model's reply wrapped in the domain label prefix. -/
theorem agent_with_index_one_call (q : String) (idx : RetrieverIndex)
    (llm : String → String) :
    (salary_agent q (some idx) llm).2 =
      [salaryPrompt (String.intercalate "\n" ((queryIndex idx q 4).map Chunk.text)) q] ∧
    (salary_agent q (some idx) llm).1 =
      "🧑‍💼 Salary Agent: " ++
        llm (salaryPrompt (String.intercalate "\n" ((queryIndex idx q 4).map Chunk.text)) q) ∧
    (insurance_agent q (some idx) llm).2 =
      [insurancePrompt (String.intercalate "\n" ((queryIndex idx q 4).map Chunk.text)) q] ∧
    (insurance_agent q (some idx) llm).1 =
      "🏥 Insurance Agent: " ++
        llm (insurancePrompt (String.intercalate "\n" ((queryIndex idx q 4).map Chunk.text)) q) :=
  ⟨rfl, rfl, rfl, rfl⟩

/-- C5: the composite answer's `final` field is populated exactly when
both the salary and the insurance sub-answers are populated. -/
theorem composite_final_iff_both (q : String)
    (s i : Option RetrieverIndex) (llm : String → String) :
    (route q s i llm).answers.final.isSome = true ↔
      ((route q s i llm).answers.salary.isSome = true ∧
       (route q s i llm).answers.insurance.isSome = true) := by
  unfold route
  cases hs : containsKw (toLowerStr q) "salary" <;>
    cases hi : containsKw (toLowerStr q) "insurance" <;> simp [hs, hi]

/-- C1: when both keywords occur (case-insensitively) in the query, the
router invokes the salary agent, the insurance agent, and then the
coordinator exactly once with the original query and the two sub-answers,
and all three composite-answer fields are populated. -/
theorem route_both_keywords (q : String) (s i : Option RetrieverIndex)
    (llm : String → String)
    (hs : containsKw (toLowerStr q) "salary" = true)
    (hi : containsKw (toLowerStr q) "insurance" = true) :
    (route q s i llm).trace =
      [.salary q, .insurance q,
       .coordinator q (salary_agent q s llm).1 (insurance_agent q i llm).1] ∧
    (route q s i llm).trace.countP isCoordinatorCall = 1 ∧
    (route q s i llm).answers =
      ⟨some (salary_agent q s llm).1, some (insurance_agent q i llm).1,
       some ((coordinator_agent q (salary_agent q s llm).1
              (insurance_agent q i llm).1 llm).1)⟩ := by
  unfold route
  simp [hs, hi, isCoordinatorCall]

/-- Witness for `route_both_keywords` at the spec's example query. -/
theorem route_both_keywords_witness :
    containsKw (toLowerStr "Compare my salary and insurance benefits") "salary" = true ∧
    containsKw (toLowerStr "Compare my salary and insurance benefits") "insurance" = true ∧
    ((route "Compare my salary and insurance benefits" none none (fun _ => "ok")).trace =
      [.salary "Compare my salary and insurance benefits",
       .insurance "Compare my salary and insurance benefits",
       .coordinator "Compare my salary and insurance benefits"
         (salary_agent "Compare my salary and insurance benefits" none (fun _ => "ok")).1
         (insurance_agent "Compare my salary and insurance benefits" none (fun _ => "ok")).1] ∧
     (route "Compare my salary and insurance benefits" none none (fun _ => "ok")).trace.countP
        isCoordinatorCall = 1 ∧
     (route "Compare my salary and insurance benefits" none none (fun _ => "ok")).answers =
      ⟨some (salary_agent "Compare my salary and insurance benefits" none (fun _ => "ok")).1,
       some (insurance_agent "Compare my salary and insurance benefits" none (fun _ => "ok")).1,
       some ((coordinator_agent "Compare my salary and insurance benefits"
              (salary_agent "Compare my salary and insurance benefits" none (fun _ => "ok")).1
              (insurance_agent "Compare my salary and insurance benefits" none (fun _ => "ok")).1
              (fun _ => "ok")).1)⟩) :=
  ⟨by decide, by decide,
   route_both_keywords "Compare my salary and insurance benefits" none none
     (fun _ => "ok") (by decide) (by decide)⟩

/-- C2: when exactly one domain keyword occurs in the query, only that
domain's agent is invoked, the coordinator is not invoked, and only the
matching composite-answer field is populated. -/
theorem route_single_keyword (q : String) (s i : Option RetrieverIndex)
    (llm : String → String) :
    (containsKw (toLowerStr q) "salary" = true →
     containsKw (toLowerStr q) "insurance" = false →
       (route q s i llm).trace = [.salary q] ∧
       (route q s i llm).answers = ⟨some (salary_agent q s llm).1, none, none⟩) ∧
    (containsKw (toLowerStr q) "insurance" = true →
     containsKw (toLowerStr q) "salary" = false →
       (route q s i llm).trace = [.insurance q] ∧
       (route q s i llm).answers = ⟨none, some (insurance_agent q i llm).1, none⟩) := by
  constructor <;> intro h1 h2 <;> unfold route <;> simp [h1, h2]

/-- Witness for `route_single_keyword` at the spec's salary-only example. -/
theorem route_single_keyword_witness :
    containsKw (toLowerStr "What is my salary?") "salary" = true ∧
    containsKw (toLowerStr "What is my salary?") "insurance" = false ∧
    ((route "What is my salary?" none none (fun _ => "ok")).trace =
       [.salary "What is my salary?"] ∧
     (route "What is my salary?" none none (fun _ => "ok")).answers =
       ⟨some (salary_agent "What is my salary?" none (fun _ => "ok")).1, none, none⟩) :=
  ⟨by decide, by decide,
   (route_single_keyword "What is my salary?" none none (fun _ => "ok")).1
     (by decide) (by decide)⟩

/-- C3: when neither keyword occurs, the router invokes no agent, sends no
prompt to the model client, populates no composite-answer field, and
returns the clarification sentinel. -/
theorem route_neither_keyword (q : String) (s i : Option RetrieverIndex)
    (llm : String → String)
    (hs : containsKw (toLowerStr q) "salary" = false)
    (hi : containsKw (toLowerStr q) "insurance" = false) :
    route q s i llm = ⟨⟨none, none, none⟩, some clarificationSentinel, [], []⟩ := by
  unfold route
  simp [hs, hi]

/-- Witness for `route_neither_keyword` at the spec's weather example. -/
theorem route_neither_keyword_witness :
    containsKw (toLowerStr "What's the weather?") "salary" = false ∧
    containsKw (toLowerStr "What's the weather?") "insurance" = false ∧
    route "What's the weather?" none none (fun _ => "ok") =
      ⟨⟨none, none, none⟩, some clarificationSentinel, [], []⟩ :=
  ⟨by decide, by decide,
   route_neither_keyword "What's the weather?" none none (fun _ => "ok")
     (by decide) (by decide)⟩

/-- C9: on a both-keywords query with no index in either domain, the
coordinator is still invoked: exactly one model prompt is sent, the
coordinator's, synthesizing over the two sentinel answers. -/
theorem coordinator_called_on_sentinels (q : String) (llm : String → String)
    (hs : containsKw (toLowerStr q) "salary" = true)
    (hi : containsKw (toLowerStr q) "insurance" = true) :
    (route q none none llm).calls =
      [coordinatorPrompt q "No salary data available." "No insurance data available."] ∧
    (route q none none llm).calls.length = 1 := by
  unfold route
  simp [hs, hi, salary_agent, insurance_agent, coordinator_agent]

/-- Witness for `coordinator_called_on_sentinels`. -/
theorem coordinator_called_on_sentinels_witness :
    containsKw (toLowerStr "salary and insurance") "salary" = true ∧
    containsKw (toLowerStr "salary and insurance") "insurance" = true ∧
    ((route "salary and insurance" none none (fun _ => "ok")).calls =
       [coordinatorPrompt "salary and insurance" "No salary data available."
          "No insurance data available."] ∧
     (route "salary and insurance" none none (fun _ => "ok")).calls.length = 1) :=
  ⟨by decide, by decide,
   coordinator_called_on_sentinels "salary and insurance" (fun _ => "ok")
     (by decide) (by decide)⟩

/-- C10: the routing branch is a function of the query alone — two runs on
the same query with different index states and model clients take the same
branch — and every agent invocation receives the original query unchanged. -/
theorem routing_depends_only_on_query (q : String)
    (s₁ i₁ s₂ i₂ : Option RetrieverIndex) (l₁ l₂ : String → String) :
    observedBranch (route q s₁ i₁ l₁) = observedBranch (route q s₂ i₂ l₂) ∧
    observedBranch (route q s₁ i₁ l₁) = classify q ∧
    List.Forall (fun c => callQuery c = q) (route q s₁ i₁ l₁).trace := by
  unfold route observedBranch classify
  cases hs : containsKw (toLowerStr q) "salary" <;>
    cases hi : containsKw (toLowerStr q) "insurance" <;>
      simp [hs, hi, callQuery]
